import Mathlib

/-!
Verification of the PPG (points-per-qualifying-game) engine of the betting
bot (`src/bot.py`): identity resolution, the two-stage snap-percentage
join, fantasy scoring, the qualification aggregator, and the bet-closing
maintenance routine.

Numeric columns of the data frames are modelled as rationals (`ℚ`); ints
(seasons, weeks, bet columns) as `ℤ`.  Joins (`pandas.DataFrame.merge`,
`how="left"`) are modelled per row by `List.find?`, i.e. first match; the
data layer requires the right-hand tables to be unique per join key
(identity map unique per `gsis_id`, snap table unique per join key), under
which first-match is exactly the left join.  A key that is absent
(`NaN` produced by the left merge with the identity map) is `Option.none`
and matches no snap record, mirroring that a missing `pfr_id` matches no
concrete `pfr_player_id` value.
-/

section PpgEngine

attribute [local semireducible] Rat.add Rat.mul Rat.inv Rat.sub Rat.ofScientific

/-- Rounding of a rational to the nearest integer, ties to the even
integer — the rounding used by Python's builtin `round`. -/
def roundHalfEven (q : ℚ) : ℤ :=
  let n : ℤ := q.num.fdiv (q.den : ℤ)
  let f : ℚ := q - (n : ℚ)
  if f < 1/2 then n
  else if 1/2 < f then n + 1
  else if n % 2 = 0 then n else n + 1

/-- Python's `round(q, 2)`: round to two decimal places. -/
def round2 (q : ℚ) : ℚ :=
  (roundHalfEven (100 * q) : ℚ) / 100

/-- A scoring configuration: the nine per-category weights
(`SCORING_PRESETS` values in `src/bot.py`, lines 44–51). -/
structure ScoringRule where
  receptions : ℚ
  pass_yd : ℚ
  pass_td : ℚ
  int : ℚ
  rush_yd : ℚ
  rush_td : ℚ
  rec_yd : ℚ
  rec_td : ℚ
  fumbles_lost : ℚ
deriving DecidableEq, Repr

/-- The keys of the `SCORING_PRESETS` dictionary.  `compute_ppg` is only
reachable with one of these keys (`addbet`/`editbet` validate membership),
so the dictionary lookup `SCORING_PRESETS[scoring_key]` is total. -/
inductive ScoringKey where
  | PPR
  | HALF
  | STD
deriving DecidableEq, Repr

/-- The `SCORING_PRESETS` table of `src/bot.py` (lines 44–51). -/
def SCORING_PRESETS : ScoringKey → ScoringRule
  | .PPR => ⟨1, 4/100, 4, -2, 1/10, 6, 1/10, 6, -2⟩
  | .HALF => ⟨1/2, 4/100, 4, -2, 1/10, 6, 1/10, 6, -2⟩
  | .STD => ⟨0, 4/100, 4, -2, 1/10, 6, 1/10, 6, -2⟩

/-- One row of the weekly player-statistics table
(`stats_player_week_{SEASON}.csv`).  The nine scoring categories are
`Option ℚ`: `none` models a value that the row does not carry, which
`fantasy_points` replaces by `0` (`row.get(k, 0) or 0`). -/
structure StatRow where
  season : ℤ
  week : ℤ
  season_type : String
  team : String
  player_id : String
  player_name : String
  receptions : Option ℚ
  passing_yards : Option ℚ
  passing_tds : Option ℚ
  interceptions : Option ℚ
  rushing_yards : Option ℚ
  rushing_tds : Option ℚ
  receiving_yards : Option ℚ
  receiving_tds : Option ℚ
  fumbles_lost : Option ℚ
deriving DecidableEq, Repr

/-- One row of the identity map (`players.csv`), restricted to the columns
`compute_ppg` selects (line 162): `gsis_id`, `display_name` (renamed
`player_name_map`) and `pfr_id`.  `pfr_id` may be missing. -/
structure IdentityRecord where
  gsis_id : String
  player_name_map : String
  pfr_id : Option String
deriving DecidableEq, Repr

/-- One row of the snap-count table (`snap_counts_{SEASON}.csv`), restricted
to the columns `compute_ppg` selects (line 167).  Snap records carry the
snap source's own player key and name, and a defined percentage. -/
structure SnapRecord where
  season : ℤ
  week : ℤ
  team : String
  player : String
  pfr_player_id : String
  offense_pct : ℚ
deriving DecidableEq, Repr

/-- The `fantasy_points` function of `src/bot.py` (lines 131–143): the weighted sum of
the nine categories, absent values contributing `0`, rounded to two
decimals. -/
def fantasy_points (row : StatRow) (scoring : ScoringRule) : ℚ :=
  let g : Option ℚ → ℚ := fun v => v.getD 0
  round2 (g row.receptions * scoring.receptions
    + g row.passing_yards * scoring.pass_yd
    + g row.passing_tds * scoring.pass_td
    + g row.interceptions * scoring.int
    + g row.rushing_yards * scoring.rush_yd
    + g row.rushing_tds * scoring.rush_td
    + g row.receiving_yards * scoring.rec_yd
    + g row.receiving_tds * scoring.rec_td
    + g row.fumbles_lost * scoring.fumbles_lost)

/-- Modelled from the spec (§4.3): the scoring contract as the spec words
it — a weighted sum over the list of the nine fixed categories, absent
categories contributing 0, rounded to 2 decimals.  Stated independently of
`fantasy_points` so the two can be compared. -/
def specScore (row : StatRow) (rule : ScoringRule) : ℚ :=
  round2 (([(row.receptions, rule.receptions),
    (row.passing_yards, rule.pass_yd),
    (row.passing_tds, rule.pass_td),
    (row.interceptions, rule.int),
    (row.rushing_yards, rule.rush_yd),
    (row.rushing_tds, rule.rush_td),
    (row.receiving_yards, rule.rec_yd),
    (row.receiving_tds, rule.rec_td),
    (row.fumbles_lost, rule.fumbles_lost)].map
      (fun vw => vw.1.getD 0 * vw.2)).sum)

/-- A token of the patterns accepted by `pandas.Series.str.contains`,
whose default is `regex=True`: `compute_ppg` (line 157) hands the
user-supplied name fragment to the regular-expression engine.  We embed
the fragment alphabet the engine needs here: literal characters and the
`.` wildcard (any character). -/
inductive RTok where
  | dot
  | lit (c : Char)
deriving DecidableEq, Repr

/-- Does the token pattern match a prefix of the character list? -/
def reMatchAt : List RTok → List Char → Bool
  | [], _ => true
  | _ :: _, [] => false
  | t :: ps, c :: cs =>
    (match t with
      | .dot => true
      | .lit a => a == c) && reMatchAt ps cs

/-- Python's `re.search`: does the pattern match at some position? -/
def reSearch (p : List RTok) : List Char → Bool
  | [] => reMatchAt p []
  | c :: cs => reMatchAt p (c :: cs) || reSearch p cs

/-- Compile a fragment string into pattern tokens: `.` is the wildcard,
every other character of a player-name fragment is a literal (faithful to
`re` for fragments whose only metacharacter is `.`). -/
def compilePat (s : List Char) : List RTok :=
  s.map (fun c => if c == '.' then RTok.dot else RTok.lit c)

/-- Lower-casing (`str.lower()`) on the character list of a string. -/
def lowerStr (s : String) : List Char :=
  s.data.map Char.toLower

/-- Modelled from the spec (§4.1): literal substring containment — does
`p` occur verbatim and contiguously inside `s`?  This is the matching the
spec prescribes ("case-insensitive substring containment"); compare with
`reSearch`, the matching the code performs. -/
def litSubstr (p : List Char) : List Char → Bool
  | [] => p.isEmpty
  | c :: cs => p.isPrefixOf (c :: cs) || litSubstr p cs

/-- The identity-resolution stage of `compute_ppg` (lines 154–158): keep
the rows of the current season and regular season type, restrict to the
inclusive week range, then keep rows whose lower-cased player name matches
the lower-cased fragment under `Series.str.contains` (regex search). -/
def resolve (stats : List StatRow) (season : ℤ) (player_name : String)
    (start_week end_week : ℤ) : List StatRow :=
  let inSeason := stats.filter
    (fun r => r.season == season && r.season_type == "REG")
  let inWeeks := inSeason.filter
    (fun r => start_week ≤ r.week && r.week ≤ end_week)
  inWeeks.filter
    (fun r => reSearch (compilePat (lowerStr player_name)) (lowerStr r.player_name))

/-- The enrichment merge of `compute_ppg` (lines 162–165): the left join of
a candidate row with the identity map on `player_id = gsis_id`, yielding
the row's `pfr_id` (`none` when the row has no identity record or the
record's `pfr_id` is itself missing). -/
def lookupPfr (players : List IdentityRecord) (row : StatRow) : Option String :=
  (players.find? (fun p => p.gsis_id == row.player_id)).bind (fun p => p.pfr_id)

/-- The primary snap join of `compute_ppg` (lines 169–174): the left join
on `(season, week, team, pfr_id ↔ pfr_player_id)`.  A `none` key (the
`NaN` the identity merge leaves on unmapped rows) matches no record. -/
def primarySnap (snaps : List SnapRecord) (row : StatRow)
    (pfr : Option String) : Option SnapRecord :=
  snaps.find? (fun s => s.season == row.season && s.week == row.week
    && s.team == row.team && some s.pfr_player_id == pfr)

/-- The fallback snap join of `compute_ppg` (lines 176–184): the left join
on `(season, week, team, player_name ↔ player)`, applied to the rows whose
primary join left `offense_pct` missing. -/
def fallbackSnap (snaps : List SnapRecord) (row : StatRow) : Option SnapRecord :=
  snaps.find? (fun s => s.season == row.season && s.week == row.week
    && s.team == row.team && s.player == row.player_name)

/-- The snap percentage `compute_ppg` (lines 169–186) attaches to one
resolved row: the primary join's percentage when it matches, else the
fallback join's, else the `fillna(0.0)` default. -/
def snapPct (players : List IdentityRecord) (snaps : List SnapRecord)
    (row : StatRow) : ℚ :=
  match primarySnap snaps row (lookupPfr players row) with
  | some s => s.offense_pct
  | none =>
    match fallbackSnap snaps row with
    | some s => s.offense_pct
    | none => 0

/-- The snap-join stage of `compute_ppg` (lines 162–186) over the whole
candidate list: every row comes out, paired with its snap percentage. -/
def attachSnapPct (players : List IdentityRecord) (snaps : List SnapRecord)
    (rows : List StatRow) : List (StatRow × ℚ) :=
  rows.map (fun r => (r, snapPct players snaps r))

/-- The qualification aggregator of `compute_ppg` (lines 186–194): filter
by `offense_pct >= min_snap_pct`; on an empty result `(0.0, 0)`; otherwise
the mean of per-row fantasy points, rounded to two decimals, with the
qualifying count. -/
def aggregate (pairs : List (StatRow × ℚ)) (min_snap_pct : ℚ)
    (scoring : ScoringRule) : ℚ × ℕ :=
  let qualified := pairs.filter (fun p => min_snap_pct ≤ p.2)
  if qualified = [] then (0, 0)
  else
    (round2 ((qualified.map (fun p => fantasy_points p.1 scoring)).sum
        / qualified.length),
      qualified.length)

/-- The `compute_ppg` function of `src/bot.py` (lines 145–194), over already-loaded
tables: resolve candidates, return `(0.0, 0)` when none, else attach snap
percentages and aggregate. -/
def compute_ppg (stats : List StatRow) (players : List IdentityRecord)
    (snaps : List SnapRecord) (season : ℤ) (player_name : String)
    (start_week end_week : ℤ) (min_snap_pct : ℚ)
    (scoring_key : ScoringKey) : ℚ × ℕ :=
  let cand := resolve stats season player_name start_week end_week
  if cand = [] then (0, 0)
  else
    aggregate (attachSnapPct players snaps cand) min_snap_pct
      (SCORING_PRESETS scoring_key)

/-- The `get_current_max_week` helper of `src/bot.py` (lines 214–223).  The stats
source is `Option`: `none` models any failure of loading or filtering (the
`except` branch), which yields `0`.  Otherwise: `0` when no current-season
regular-season rows exist, else the maximum week among them. -/
def get_current_max_week (src : Option (List StatRow)) (season : ℤ) : ℤ :=
  match src with
  | none => 0
  | some stats =>
    match stats.filter (fun r => r.season == season && r.season_type == "REG") with
    | [] => 0
    | r :: rs => (rs.map (fun x => x.week)).foldl max r.week

/-- One row of the `bets` table (`src/bot.py`, lines 77–93). -/
structure Bet where
  id : ℤ
  creator_discord_id : String
  player_a : String
  player_b : String
  description : String
  scoring : String
  min_snap_pct : ℚ
  season : ℤ
  start_week : ℤ
  end_week : ℤ
  participants : String
  is_active : ℤ
  created_at : String
deriving DecidableEq, Repr

/-- The `close_completed_bets` task of `src/bot.py` (lines 225–234): when the max
published week is positive, run
`UPDATE bets SET is_active=0 WHERE season=? AND is_active=1 AND end_week<=?`
on the table; otherwise leave the table alone. -/
def close_completed_bets (src : Option (List StatRow)) (season : ℤ)
    (bets : List Bet) : List Bet :=
  let max_week := get_current_max_week src season
  if max_week ≤ 0 then bets
  else bets.map (fun b =>
    if b.season == season && b.is_active == 1 && b.end_week ≤ max_week then
      { b with is_active := 0 }
    else b)

/-! ### Sample data for the concrete witnesses -/

/-- A week-1 receiving line: 5 receptions, 80 receiving yards, 1 receiving
touchdown, all other categories absent. -/
def rowA : StatRow :=
  { season := 2025, week := 1, season_type := "REG", team := "DET",
    player_id := "00-0036973", player_name := "Amon-Ra St. Brown",
    receptions := some 5, passing_yards := none, passing_tds := none,
    interceptions := none, rushing_yards := none, rushing_tds := none,
    receiving_yards := some 80, receiving_tds := some 1, fumbles_lost := none }

/-- A week-2 line for the same player: 2 receptions for 30 yards. -/
def rowB : StatRow :=
  { rowA with
    week := 2
    receptions := some 2
    receiving_yards := some 30
    receiving_tds := none }

/-- An identity record mapping `rowA`'s canonical id to a snap-source id. -/
def idA : IdentityRecord :=
  { gsis_id := "00-0036973", player_name_map := "Amon-Ra St. Brown",
    pfr_id := some "StxBA00" }

/-- A snap record matching `rowA` on the primary key. -/
def snapA : SnapRecord :=
  { season := 2025, week := 1, team := "DET", player := "Amon-Ra St. Brown",
    pfr_player_id := "StxBA00", offense_pct := 88 }

/-- A snap record matching `rowB` on the primary key, at 40%. -/
def snapB : SnapRecord :=
  { snapA with week := 2, offense_pct := 40 }

/-! ### Helper lemmas -/

/-- The qualifying-game count of `aggregate` is always the length of the
snap-filtered list, in both the empty and the non-empty branch. -/
theorem aggregate_snd (pairs : List (StatRow × ℚ)) (t : ℚ) (rule : ScoringRule) :
    (aggregate pairs t rule).2 = (pairs.filter (fun p => t ≤ p.2)).length := by
  unfold aggregate
  by_cases h : pairs.filter (fun p => decide (t ≤ p.2)) = [] <;> simp [h]

theorem le_foldl_max (l : List ℤ) (a : ℤ) : a ≤ l.foldl max a := by
  induction l generalizing a with
  | nil => exact le_refl a
  | cons b bs ih => exact le_trans (le_max_left a b) (ih (max a b))

theorem foldl_max_mem (l : List ℤ) (a : ℤ) :
    l.foldl max a = a ∨ l.foldl max a ∈ l := by
  induction l generalizing a with
  | nil => exact Or.inl rfl
  | cons b bs ih =>
    rcases ih (max a b) with h | h
    · rcases max_choice a b with hm | hm
      · exact Or.inl (by rw [List.foldl_cons, h, hm])
      · exact Or.inr (by rw [List.foldl_cons, h, hm]; exact List.mem_cons_self b bs)
    · exact Or.inr (List.mem_cons_of_mem b h)

theorem mem_le_foldl_max (l : List ℤ) (a : ℤ) :
    ∀ w ∈ l, w ≤ l.foldl max a := by
  induction l generalizing a with
  | nil => intro w hw; cases hw
  | cons b bs ih =>
    intro w hw
    rcases List.mem_cons.mp hw with rfl | hw
    · exact le_trans (le_max_right a w) (le_foldl_max bs (max a w))
    · exact ih (max a b) w hw

/-! ### Claims -/

/-- C2: the aggregator keeps exactly the rows with `snap_pct ≥ min_snap_pct`
(boundary inclusive); if no row survives it returns `(0.0, 0)`; otherwise it
returns the mean of the per-row fantasy scores over the survivors, rounded
to 2 decimals, paired with the surviving row count. -/
theorem c2_aggregate_contract (pairs : List (StatRow × ℚ)) (t : ℚ)
    (rule : ScoringRule) :
    (∀ p, p ∈ pairs.filter (fun p => t ≤ p.2) ↔ p ∈ pairs ∧ t ≤ p.2)
    ∧ (aggregate pairs t rule).2 = (pairs.filter (fun p => t ≤ p.2)).length
    ∧ (pairs.filter (fun p => t ≤ p.2) = [] → aggregate pairs t rule = (0, 0))
    ∧ (pairs.filter (fun p => t ≤ p.2) ≠ [] →
        aggregate pairs t rule =
          (round2 (((pairs.filter (fun p => t ≤ p.2)).map
                (fun p => fantasy_points p.1 rule)).sum
              / ((pairs.filter (fun p => t ≤ p.2)).length : ℚ)),
            (pairs.filter (fun p => t ≤ p.2)).length)) := by
  refine ⟨?_, aggregate_snd pairs t rule, ?_, ?_⟩
  · intro p
    simp [List.mem_filter]
  · intro h
    unfold aggregate
    simp [h]
  · intro h
    unfold aggregate
    simp [h]

/-- C2 witness: at threshold 25, a 25%-snap game survives (inclusive
boundary) while a 10%-snap game does not; the aggregate is that game's
score with count 1. -/
theorem c2_aggregate_contract_witness :
    [(rowA, (25 : ℚ)), (rowB, 10)].filter (fun p => (25 : ℚ) ≤ p.2) ≠ []
    ∧ aggregate [(rowA, (25 : ℚ)), (rowB, 10)] 25 (SCORING_PRESETS .PPR) =
        (round2 ((([(rowA, (25 : ℚ)), (rowB, 10)].filter
              (fun p => (25 : ℚ) ≤ p.2)).map
            (fun p => fantasy_points p.1 (SCORING_PRESETS .PPR))).sum
          / (([(rowA, (25 : ℚ)), (rowB, 10)].filter
              (fun p => (25 : ℚ) ≤ p.2)).length : ℚ)),
          ([(rowA, (25 : ℚ)), (rowB, 10)].filter
              (fun p => (25 : ℚ) ≤ p.2)).length) :=
  ⟨by decide,
    (c2_aggregate_contract [(rowA, (25 : ℚ)), (rowB, 10)] 25
      (SCORING_PRESETS .PPR)).2.2.2 (by decide)⟩

/-- C3: `fantasy_points` is the weighted sum over the nine fixed categories
with absent categories contributing 0, rounded to 2 decimals (and, being a
pure function, deterministic); on 5 receptions, 80 receiving yards and 1
receiving touchdown the PPR rule scores exactly 19.00. -/
theorem c3_scoring_weighted_sum (row : StatRow) (rule : ScoringRule) :
    fantasy_points row rule = specScore row rule
    ∧ fantasy_points rowA (SCORING_PRESETS .PPR) = 19 := by
  constructor
  · unfold fantasy_points specScore
    simp only [List.map_cons, List.map_nil, List.sum_cons, List.sum_nil]
    ring_nf
  · decide

/-- C6: raising the snap threshold never increases the qualifying-game
count. -/
theorem c6_threshold_monotone (pairs : List (StatRow × ℚ)) (t1 t2 : ℚ)
    (rule : ScoringRule) (h : t1 ≤ t2) :
    (aggregate pairs t2 rule).2 ≤ (aggregate pairs t1 rule).2 := by
  rw [aggregate_snd, aggregate_snd]
  rw [← List.countP_eq_length_filter, ← List.countP_eq_length_filter]
  refine List.countP_mono_left ?_
  intro p _ hp
  simp only [decide_eq_true_eq] at hp ⊢
  exact le_trans h hp

/-- C6 witness: with one 40%-snap game, moving the threshold from 25 up to
50 does not increase the count. -/
theorem c6_threshold_monotone_witness :
    (25 : ℚ) ≤ 50
    ∧ (aggregate [(rowA, (40 : ℚ))] 50 (SCORING_PRESETS .PPR)).2
        ≤ (aggregate [(rowA, (40 : ℚ))] 25 (SCORING_PRESETS .PPR)).2 :=
  ⟨by decide,
    c6_threshold_monotone [(rowA, (40 : ℚ))] 25 50 (SCORING_PRESETS .PPR)
      (by decide)⟩

/-- Any snap percentage produced by the join stage is the `offense_pct` of
some snap record, or the `0.0` default; so it is non-negative whenever the
snap table's percentages are. -/
theorem snapPct_nonneg (players : List IdentityRecord)
    (snaps : List SnapRecord) (row : StatRow)
    (h : ∀ s ∈ snaps, 0 ≤ s.offense_pct) :
    0 ≤ snapPct players snaps row := by
  unfold snapPct
  cases hp : primarySnap snaps row (lookupPfr players row) with
  | some s => exact h s (List.mem_of_find?_eq_some hp)
  | none =>
    cases hf : fallbackSnap snaps row with
    | some s => exact h s (List.mem_of_find?_eq_some hf)
    | none => exact le_refl 0

/-- C7: with the snap percentages attached by the join stage (missing
participation defaulting to 0.0), threshold 0 admits every row: the
qualifying-game count equals the total row count. -/
theorem c7_zero_threshold_admits_all (players : List IdentityRecord)
    (snaps : List SnapRecord) (rows : List StatRow) (rule : ScoringRule)
    (h : ∀ s ∈ snaps, 0 ≤ s.offense_pct) :
    (aggregate (attachSnapPct players snaps rows) 0 rule).2 = rows.length := by
  rw [aggregate_snd]
  have hall : ∀ p ∈ attachSnapPct players snaps rows,
      (fun p : StatRow × ℚ => decide ((0 : ℚ) ≤ p.2)) p = true := by
    intro p hp
    rcases List.mem_map.mp hp with ⟨r, _, rfl⟩
    simpa using snapPct_nonneg players snaps r h
  rw [List.filter_eq_self.mpr hall]
  exact List.length_map rows _

/-- C7 witness: both sample games qualify at threshold 0, so the count is
the full row count 2. -/
theorem c7_zero_threshold_admits_all_witness :
    (∀ s ∈ [snapA, snapB], 0 ≤ s.offense_pct)
    ∧ (aggregate (attachSnapPct [idA] [snapA, snapB] [rowA, rowB]) 0
        (SCORING_PRESETS .PPR)).2 = [rowA, rowB].length :=
  ⟨by decide,
    c7_zero_threshold_admits_all [idA] [snapA, snapB] [rowA, rowB]
      (SCORING_PRESETS .PPR) (by decide)⟩

/-- C8: the aggregate (rounded mean and count) is invariant under
permutation of the row sequence. -/
theorem c8_order_independent (pairs₁ pairs₂ : List (StatRow × ℚ)) (t : ℚ)
    (rule : ScoringRule) (h : pairs₁.Perm pairs₂) :
    aggregate pairs₁ t rule = aggregate pairs₂ t rule := by
  have hf : (pairs₁.filter (fun p => t ≤ p.2)).Perm
      (pairs₂.filter (fun p => t ≤ p.2)) := h.filter _
  unfold aggregate
  by_cases h1 : pairs₁.filter (fun p => decide (t ≤ p.2)) = []
  · have h2 : pairs₂.filter (fun p => decide (t ≤ p.2)) = [] := by
      rw [h1] at hf
      exact List.Perm.eq_nil hf.symm
    simp [h1, h2]
  · have h2 : pairs₂.filter (fun p => decide (t ≤ p.2)) ≠ [] := by
      intro h2
      rw [h2] at hf
      exact h1 (List.Perm.eq_nil hf)
    have hsum : ((pairs₁.filter (fun p => decide (t ≤ p.2))).map
          (fun p => fantasy_points p.1 rule)).sum
        = ((pairs₂.filter (fun p => decide (t ≤ p.2))).map
          (fun p => fantasy_points p.1 rule)).sum :=
      (hf.map _).sum_eq
    have hlen : (pairs₁.filter (fun p => decide (t ≤ p.2))).length
        = (pairs₂.filter (fun p => decide (t ≤ p.2))).length := hf.length_eq
    simp [h1, h2, hsum, hlen]

/-- C8 witness: swapping the two sample games leaves the aggregate
unchanged. -/
theorem c8_order_independent_witness :
    ([(rowA, (30 : ℚ)), (rowB, 40)].Perm [(rowB, (40 : ℚ)), (rowA, 30)])
    ∧ aggregate [(rowA, (30 : ℚ)), (rowB, 40)] 25 (SCORING_PRESETS .PPR)
        = aggregate [(rowB, (40 : ℚ)), (rowA, 30)] 25 (SCORING_PRESETS .PPR) :=
  ⟨by decide,
    c8_order_independent [(rowA, (30 : ℚ)), (rowB, 40)]
      [(rowB, (40 : ℚ)), (rowA, 30)] 25 (SCORING_PRESETS .PPR) (by decide)⟩

/-- C5: the full pipeline returns the ordinary value `(0.0, 0)` — not an
error — both when the name fragment matches zero rows and when rows
matched but none meets the snap threshold. -/
theorem c5_empty_outcomes (stats : List StatRow)
    (players : List IdentityRecord) (snaps : List SnapRecord) (season : ℤ)
    (player_name : String) (start_week end_week : ℤ) (min_snap_pct : ℚ)
    (key : ScoringKey)
    (h : resolve stats season player_name start_week end_week = []
      ∨ (attachSnapPct players snaps
            (resolve stats season player_name start_week end_week)).filter
          (fun p => min_snap_pct ≤ p.2) = []) :
    compute_ppg stats players snaps season player_name start_week end_week
      min_snap_pct key = (0, 0) := by
  unfold compute_ppg
  rcases h with h | h
  · simp [h]
  · by_cases hc : resolve stats season player_name start_week end_week = []
    · simp [hc]
    · unfold aggregate
      simp [hc, h]

/-- C5 witness: the sample row matches the fragment, but with no snap table
its snap percentage defaults to 0.0, below the threshold 25 — and the
pipeline returns `(0.0, 0)`. -/
theorem c5_empty_outcomes_witness :
    (attachSnapPct [] [] (resolve [rowA] 2025 "brown" 1 18)).filter
      (fun p => (25 : ℚ) ≤ p.2) = []
    ∧ compute_ppg [rowA] [] [] 2025 "brown" 1 18 25 .PPR = (0, 0) :=
  ⟨by decide,
    c5_empty_outcomes [rowA] [] [] 2025 "brown" 1 18 25 .PPR
      (Or.inr (by decide))⟩

/-- C1: the snap-join stage drops no row and raises no error; each row gets
the percentage of the primary-key match when one exists; a row whose
secondary identifier is undefined always fails the primary join; a row that
failed the primary join gets the fallback (name-key) percentage when that
match exists; and a row unmatched by both joins gets snap_pct = 0.0. -/
theorem c1_snap_join (players : List IdentityRecord)
    (snaps : List SnapRecord) (rows : List StatRow) :
    ((attachSnapPct players snaps rows).map Prod.fst = rows)
    ∧ (∀ r ∈ rows, (r, snapPct players snaps r) ∈ attachSnapPct players snaps rows)
    ∧ (∀ r s, primarySnap snaps r (lookupPfr players r) = some s →
        snapPct players snaps r = s.offense_pct)
    ∧ (∀ r, lookupPfr players r = none →
        primarySnap snaps r (lookupPfr players r) = none)
    ∧ (∀ r s, primarySnap snaps r (lookupPfr players r) = none →
        fallbackSnap snaps r = some s → snapPct players snaps r = s.offense_pct)
    ∧ (∀ r, primarySnap snaps r (lookupPfr players r) = none →
        fallbackSnap snaps r = none → snapPct players snaps r = 0) := by
  refine ⟨?_, ?_, ?_, ?_, ?_, ?_⟩
  · unfold attachSnapPct
    rw [List.map_map]
    exact List.map_id rows
  · intro r hr
    exact List.mem_map.mpr ⟨r, hr, rfl⟩
  · intro r s hp
    unfold snapPct
    rw [hp]
  · intro r hnone
    unfold primarySnap
    rw [hnone]
    refine List.find?_eq_none.mpr ?_
    intro s _
    simp
  · intro r s hp hf
    unfold snapPct
    rw [hp, hf]
  · intro r hp hf
    unfold snapPct
    rw [hp, hf]

/-- C1 witness: on the sample data the primary key matches `rowA` to
`snapA`, and the attached percentage is snapA's 88. -/
theorem c1_snap_join_witness :
    primarySnap [snapA] rowA (lookupPfr [idA] rowA) = some snapA
    ∧ snapPct [idA] [snapA] rowA = 88 :=
  ⟨by decide,
    (c1_snap_join [idA] [snapA] [rowA]).2.2.1 rowA snapA (by decide)⟩

/-- C4, evaluated at the failing input: the resolver selects the sample row
for the fragment `"a.o"`, because `Series.str.contains` interprets the
fragment as a regular expression and `a.o` matches `amo` in the lowered
name — yet `"a.o"` is not a literal substring of the name, so substring
containment (what the claim states) would reject the row.  Week-range and
season-type restriction behave as claimed; the matching mode does not. -/
theorem c4_regex_not_substring :
    resolve [rowA] 2025 "a.o" 1 18 = [rowA]
    ∧ litSubstr (lowerStr "a.o") (lowerStr rowA.player_name) = false := by
  exact ⟨by decide, by decide⟩

/-- C9 counterexample: a statistics source whose only regular-season row
carries week −3 makes `get_current_max_week` return −3, a negative
integer — the claim promises a non-negative integer for every state of the
source. -/
theorem c9_counterexample :
    get_current_max_week (some [{ rowA with week := -3 }]) 2025 < 0 := by
  decide

/-- The week returned on a non-empty filtered source is the week of one of
the filtered rows. -/
theorem max_week_mem (stats : List StatRow) (season : ℤ)
    (h : stats.filter (fun r => r.season == season && r.season_type == "REG") ≠ []) :
    get_current_max_week (some stats) season ∈
      (stats.filter (fun r => r.season == season && r.season_type == "REG")).map
        (fun r => r.week) := by
  rcases hc : stats.filter (fun r => r.season == season && r.season_type == "REG")
    with _ | ⟨r, rs⟩
  · exact absurd hc h
  · have hval : get_current_max_week (some stats) season
        = (rs.map (fun x => x.week)).foldl max r.week := by
      unfold get_current_max_week
      simp only [hc]
    rw [hval, hc]
    rcases foldl_max_mem (rs.map (fun x => x.week)) r.week with hm | hm
    · rw [hm]
      exact List.mem_map.mpr ⟨r, List.mem_cons_self r rs, rfl⟩
    · rcases List.mem_map.mp hm with ⟨x, hx, hxw⟩
      rw [← hxw]
      exact List.mem_map.mpr ⟨x, List.mem_cons_of_mem r hx, rfl⟩

/-- The week returned dominates the week of every filtered row. -/
theorem max_week_ge (stats : List StatRow) (season : ℤ) :
    ∀ w ∈ (stats.filter (fun r => r.season == season && r.season_type == "REG")).map
        (fun r => r.week),
      w ≤ get_current_max_week (some stats) season := by
  intro w hw
  rcases hc : stats.filter (fun r => r.season == season && r.season_type == "REG")
    with _ | ⟨r, rs⟩
  · rw [hc] at hw
    cases hw
  · have hval : get_current_max_week (some stats) season
        = (rs.map (fun x => x.week)).foldl max r.week := by
      unfold get_current_max_week
      simp only [hc]
    rw [hval]
    rw [hc] at hw
    rcases List.mem_map.mp hw with ⟨x, hx, hxw⟩
    rcases List.mem_cons.mp hx with rfl | hx
    · rw [← hxw]
      exact le_foldl_max (rs.map (fun y => y.week)) x.week
    · rw [← hxw]
      exact mem_le_foldl_max (rs.map (fun y => y.week)) r.week x.week
        (List.mem_map.mpr ⟨x, hx, rfl⟩)

/-- C9 (amended): `get_current_max_week` never raises; it returns 0 when
loading fails or when no current-season regular-season rows exist, and
otherwise the maximum week value among those rows — which is non-negative
whenever all week values of the source are (the code does not clamp
negative weeks). -/
theorem c9_max_week (src : Option (List StatRow)) (season : ℤ) :
    (src = none → get_current_max_week src season = 0)
    ∧ (∀ stats, src = some stats →
        stats.filter (fun r => r.season == season && r.season_type == "REG") = [] →
        get_current_max_week src season = 0)
    ∧ (∀ stats, src = some stats →
        stats.filter (fun r => r.season == season && r.season_type == "REG") ≠ [] →
        get_current_max_week src season ∈
            (stats.filter (fun r => r.season == season && r.season_type == "REG")).map
              (fun r => r.week)
          ∧ ∀ w ∈ (stats.filter (fun r => r.season == season && r.season_type == "REG")).map
              (fun r => r.week), w ≤ get_current_max_week src season)
    ∧ (∀ stats, src = some stats → (∀ r ∈ stats, 0 ≤ r.week) →
        0 ≤ get_current_max_week src season) := by
  refine ⟨?_, ?_, ?_, ?_⟩
  · intro h
    rw [h]
    rfl
  · intro stats hsrc hf
    rw [hsrc]
    unfold get_current_max_week
    simp only [hf]
  · intro stats hsrc hf
    rw [hsrc]
    exact ⟨max_week_mem stats season hf, max_week_ge stats season⟩
  · intro stats hsrc hnn
    rw [hsrc]
    by_cases hf : stats.filter (fun r => r.season == season && r.season_type == "REG") = []
    · unfold get_current_max_week
      simp [hf]
    · rcases List.mem_map.mp (max_week_mem stats season hf) with ⟨x, hx, hxw⟩
      rw [← hxw]
      exact hnn x (List.mem_of_mem_filter hx)

/-- C9 witness: on a two-row regular-season source the returned value is
one of the published weeks (here: the maximum, 2). -/
theorem c9_max_week_witness :
    [rowA, rowB].filter
        (fun r => r.season == (2025 : ℤ) && r.season_type == "REG") ≠ []
    ∧ get_current_max_week (some [rowA, rowB]) 2025 ∈
        ([rowA, rowB].filter
            (fun r => r.season == (2025 : ℤ) && r.season_type == "REG")).map
          (fun r => r.week) :=
  ⟨by decide,
    ((c9_max_week (some [rowA, rowB]) 2025).2.2.1 [rowA, rowB] rfl
      (by decide)).1⟩

/-- C10: with a positive max published week, `close_completed_bets` leaves
no current-season bet with `end_week ≤ max_week` active; every other bet,
and every column other than `is_active`, is unchanged; with max week 0 the
table is not modified at all. -/
theorem c10_close_completed_bets (src : Option (List StatRow)) (season : ℤ)
    (bets : List Bet) :
    (get_current_max_week src season = 0 →
      close_completed_bets src season bets = bets)
    ∧ (0 < get_current_max_week src season →
        (close_completed_bets src season bets).length = bets.length
        ∧ ∀ pr ∈ bets.zip (close_completed_bets src season bets),
            (pr.2.id = pr.1.id
              ∧ pr.2.creator_discord_id = pr.1.creator_discord_id
              ∧ pr.2.player_a = pr.1.player_a
              ∧ pr.2.player_b = pr.1.player_b
              ∧ pr.2.description = pr.1.description
              ∧ pr.2.scoring = pr.1.scoring
              ∧ pr.2.min_snap_pct = pr.1.min_snap_pct
              ∧ pr.2.season = pr.1.season
              ∧ pr.2.start_week = pr.1.start_week
              ∧ pr.2.end_week = pr.1.end_week
              ∧ pr.2.participants = pr.1.participants
              ∧ pr.2.created_at = pr.1.created_at)
            ∧ (pr.1.season = season →
                pr.1.end_week ≤ get_current_max_week src season →
                pr.2.is_active ≠ 1)
            ∧ (¬(pr.1.season = season ∧ pr.1.is_active = 1
                  ∧ pr.1.end_week ≤ get_current_max_week src season) →
                pr.2 = pr.1)) := by
  constructor
  · intro h0
    unfold close_completed_bets
    rw [h0]
    rfl
  · intro hpos
    have hnle : ¬ get_current_max_week src season ≤ 0 := not_le.mpr hpos
    have hout : close_completed_bets src season bets
        = bets.map (fun b =>
            if b.season == season && b.is_active == 1
                && b.end_week ≤ get_current_max_week src season then
              { b with is_active := 0 }
            else b) := by
      unfold close_completed_bets
      rw [if_neg hnle]
    constructor
    · rw [hout]
      exact List.length_map bets _
    · intro pr hpr
      rw [hout] at hpr
      have hzip := List.zip_map' id (fun b =>
          if b.season == season && b.is_active == 1
              && b.end_week ≤ get_current_max_week src season then
            { b with is_active := 0 }
          else b) bets
      simp only [List.map_id, id_eq] at hzip
      rw [hzip] at hpr
      rcases List.mem_map.mp hpr with ⟨b, _, rfl⟩
      by_cases hcond : (b.season == season && b.is_active == 1
          && b.end_week ≤ get_current_max_week src season) = true
      · refine ⟨by simp [hcond], ?_, ?_⟩
        · intro _ _ hone
          simp [hcond] at hone
        · intro hnot
          simp only [Bool.and_eq_true, beq_iff_eq, decide_eq_true_eq] at hcond
          exact absurd ⟨hcond.1.1, hcond.1.2, hcond.2⟩ hnot
      · refine ⟨by simp [hcond], ?_, ?_⟩
        · intro hseason hend hone
          simp only [if_neg hcond] at hone
          simp only [Bool.and_eq_true, beq_iff_eq, decide_eq_true_eq] at hcond
          exact hcond ⟨⟨hseason, hone⟩, hend⟩
        · intro _
          simp [hcond]

/-- C10 witness: with published weeks up to 2, a season-2025 bet ending at
week 2 is closed while a season-2024 bet is untouched; the row count is
preserved. -/
theorem c10_close_completed_bets_witness :
    0 < get_current_max_week (some [rowA, rowB]) 2025
    ∧ (close_completed_bets (some [rowA, rowB]) 2025
        [{ id := 1, creator_discord_id := "u1", player_a := "A",
           player_b := "B", description := "", scoring := "PPR",
           min_snap_pct := 25, season := 2025, start_week := 1,
           end_week := 2, participants := "", is_active := 1,
           created_at := "t" },
         { id := 2, creator_discord_id := "u2", player_a := "C",
           player_b := "D", description := "", scoring := "STD",
           min_snap_pct := 25, season := 2024, start_week := 1,
           end_week := 2, participants := "", is_active := 1,
           created_at := "t" }]).length = 2 :=
  ⟨by decide,
    ((c10_close_completed_bets (some [rowA, rowB]) 2025
      [{ id := 1, creator_discord_id := "u1", player_a := "A",
         player_b := "B", description := "", scoring := "PPR",
         min_snap_pct := 25, season := 2025, start_week := 1,
         end_week := 2, participants := "", is_active := 1,
         created_at := "t" },
       { id := 2, creator_discord_id := "u2", player_a := "C",
         player_b := "D", description := "", scoring := "STD",
         min_snap_pct := 25, season := 2024, start_week := 1,
         end_week := 2, participants := "", is_active := 1,
         created_at := "t" }]).2 (by decide)).1⟩

end PpgEngine
